import Mathlib

/-!
Shallow embedding of the `empatica/go-shopify` client (package `shopify`).

The Go source is a thin client over the `gorequest` HTTP builder library:
a `Shopify` struct holding credentials, URL construction by string
concatenation, optional JSON serialization of a request body, and a single
HTTP call per operation.

Modelling choices:
* Go strings are Lean `String`s; `fmt.Sprintf("%v%v=%v&", a, k, v)` is
  plain string append.
* The `gorequest` builder is a record `GoRequest` of method, URL and
  optional `Send` body; `End()` consults an abstract `Transport`
  (a function from the built request to an HTTP response) and we also
  return the list of requests issued so that "issues exactly one call"
  is statable.
* Go's `map[string]string` parameter is modelled as
  `Option (List (String × String))`: `none` is the nil map, the list is
  the (unspecified) iteration order of a non-nil map.
* `interface{}` data is an abstract type `V`, with Go `nil` as `none`.
* `error` values are abstract (`GoError := String`); a nil error is `none`.
* Go methods take `*Shopify` but never assign to its fields; the embedding
  passes the receiver state explicitly and returns it in the result, so
  frame claims are statable.
-/

/-- Go `error` values, abstract. -/
def GoError := String

instance : DecidableEq GoError := fun a b => String.decEq a b

/-- HTTP verbs used by the gorequest builder. -/
inductive Method where
  | GET
  | POST
  | PUT
  | DELETE
  deriving DecidableEq, Repr

/-- The state of a `gorequest` request builder: verb, target URL, and the
optional body passed to `Send`. -/
structure GoRequest where
  method : Method
  url : String
  sendBody : Option String
  deriving DecidableEq, Repr

/-- An HTTP response as surfaced by `gorequest`'s `End()`: a status code,
the raw body string, and the transport-level error list. -/
structure HTTPResponse where
  status : Nat
  body : String
  errs : List GoError

/-- The external HTTP transport: what `End()` does with a built request. -/
def Transport := GoRequest → HTTPResponse

/-- `gorequest.New()`. -/
def gorequestNew : GoRequest := { method := Method.GET, url := "", sendBody := none }

/-- `request.Get(url)`. -/
def GoRequest.get (r : GoRequest) (u : String) : GoRequest :=
  { r with method := Method.GET, url := u }

/-- `request.Post(url)`. -/
def GoRequest.post (r : GoRequest) (u : String) : GoRequest :=
  { r with method := Method.POST, url := u }

/-- `request.Put(url)`. -/
def GoRequest.put (r : GoRequest) (u : String) : GoRequest :=
  { r with method := Method.PUT, url := u }

/-- `request.Delete(url)`. -/
def GoRequest.delete (r : GoRequest) (u : String) : GoRequest :=
  { r with method := Method.DELETE, url := u }

/-- `request.Send(body)`. -/
def GoRequest.send (r : GoRequest) (s : String) : GoRequest :=
  { r with sendBody := some s }

/-- `request.End()`: performs the call through the transport, returning the
response, its body, its errors, and (for the embedding) the one-element
trace of issued requests. -/
def GoRequest.endCall (r : GoRequest) (t : Transport) :
    HTTPResponse × String × List GoError × List GoRequest :=
  let resp := t r
  (resp, resp.body, resp.errs, [r])

/-- The `Shopify` store struct: domain name, API key, password. -/
structure Shopify where
  store : String
  apiKey : String
  pass : String
  deriving DecidableEq, Repr

/-- `const domain = ".myshopify.com/admin"`. -/
def domain : String := ".myshopify.com/admin"

/-- `New(store, apiKey, pass)`. -/
def New (store apiKey pass : String) : Shopify :=
  { store := store, apiKey := apiKey, pass := pass }

/-- `createTargetURLWithParameters(endpoint, parameters)`:
`parametersString` is empty for a nil or empty map, and otherwise `?`
followed, for each key in iteration order, by `k=v&`; the URL is
`https://{apiKey}:{pass}@{store}.myshopify.com/admin/{endpoint}.json{parametersString}`. -/
def Shopify.createTargetURLWithParameters (shopify : Shopify) (endpoint : String)
    (parameters : Option (List (String × String))) : String :=
  let parametersString :=
    match parameters with
    | none => ""
    | some ps =>
      if ps.length > 0 then
        ps.foldl (fun acc kv => acc ++ kv.1 ++ "=" ++ kv.2 ++ "&") "?"
      else ""
  "https://" ++ shopify.apiKey ++ ":" ++ shopify.pass ++ "@" ++ shopify.store ++ domain
    ++ "/" ++ endpoint ++ ".json" ++ parametersString

/-- `createTargetURL(endpoint)`. -/
def Shopify.createTargetURL (shopify : Shopify) (endpoint : String) : String :=
  shopify.createTargetURLWithParameters endpoint none

/-- Modelled from the spec: `getJSONBytesFromMap` is called by the client but
its definition is not under `src/`; per the spec it is an external JSON
collaborator that serializes a value to bytes or fails. It is modelled as an
abstract serializer returning Go's `([]byte, error)` pair: possibly-nil
bytes and a possibly-nil error. -/
def Serializer (V : Type) := Option V → Option String × Option GoError

/-- The outcome of one client method call: the receiver state after the
call, the returned byte slice (`none` is Go `nil`), the returned error
list, and the trace of HTTP requests issued during the call. -/
structure CallResult where
  self : Shopify
  body : Option String
  errs : List GoError
  trace : List GoRequest

/-- `Request(method, endpoint, data)`: serializes `data` discarding the
error, builds the parameterless target URL, builds a GET request (the
`method` argument is never consulted), attaches the body when both the
serialized bytes and `data` are non-nil, and issues the call. -/
def Shopify.Request {V : Type} (shopify : Shopify) (ser : Serializer V) (t : Transport)
    (method : String) (endpoint : String) (data : Option V) : CallResult :=
  let jsonData := (ser data).1
  let targetURL := shopify.createTargetURL endpoint
  let request := gorequestNew
  let request := request.get targetURL
  let request :=
    match jsonData, data with
    | some jd, some _ => request.send jd
    | _, _ => request
  let (_, body, errs, trace) := request.endCall t
  { self := shopify, body := some body, errs := errs, trace := trace }

/-- `GetWithParameters(endpoint, parameters)`: builds the URL with the
given parameters and issues a GET. -/
def Shopify.GetWithParameters (shopify : Shopify) (t : Transport) (endpoint : String)
    (parameters : Option (List (String × String))) : CallResult :=
  let targetURL := shopify.createTargetURLWithParameters endpoint parameters
  let (_, body, errs, trace) := (gorequestNew.get targetURL).endCall t
  { self := shopify, body := some body, errs := errs, trace := trace }

/-- `Get(endpoint)`: delegates to `GetWithParameters` with a nil map. -/
def Shopify.Get (shopify : Shopify) (t : Transport) (endpoint : String) : CallResult :=
  shopify.GetWithParameters t endpoint none

/-- `Post(endpoint, data)`: builds the URL, serializes `data`, returns
`(nil, [err])` without any HTTP call when serialization fails, otherwise
issues a POST with the body attached when both serialized bytes and `data`
are non-nil. -/
def Shopify.Post {V : Type} (shopify : Shopify) (ser : Serializer V) (t : Transport)
    (endpoint : String) (data : Option V) : CallResult :=
  let targetURL := shopify.createTargetURL endpoint
  let (jsonData, err) := ser data
  match err with
  | some e => { self := shopify, body := none, errs := [e], trace := [] }
  | none =>
    let request := gorequestNew.post targetURL
    let request :=
      match jsonData, data with
      | some jd, some _ => request.send jd
      | _, _ => request
    let (_, body, errs, trace) := request.endCall t
    { self := shopify, body := some body, errs := errs, trace := trace }

/-- `Put(endpoint, data)`: same shape as `Post` with the PUT verb. -/
def Shopify.Put {V : Type} (shopify : Shopify) (ser : Serializer V) (t : Transport)
    (endpoint : String) (data : Option V) : CallResult :=
  let targetURL := shopify.createTargetURL endpoint
  let (jsonData, err) := ser data
  match err with
  | some e => { self := shopify, body := none, errs := [e], trace := [] }
  | none =>
    let request := gorequestNew.put targetURL
    let request :=
      match jsonData, data with
      | some jd, some _ => request.send jd
      | _, _ => request
    let (_, body, errs, trace) := request.endCall t
    { self := shopify, body := some body, errs := errs, trace := trace }

/-- `Delete(endpoint)`: builds the parameterless URL and issues a DELETE
with no body. -/
def Shopify.Delete (shopify : Shopify) (t : Transport) (endpoint : String) : CallResult :=
  let targetURL := shopify.createTargetURL endpoint
  let (_, body, errs, trace) := (gorequestNew.delete targetURL).endCall t
  { self := shopify, body := some body, errs := errs, trace := trace }

/-! ### Concrete collaborators used by witness theorems -/

/-- A serializer that always fails with error "boom" and nil bytes. -/
def serFail : Serializer Unit := fun _ => (none, some "boom")

/-- A serializer that always succeeds with bytes `"{}"`. -/
def serOk : Serializer Unit := fun _ => (some "\x7b\x7d", none)

/-- A transport answering every request with status 200, body "B" and one error "E". -/
def t0 : Transport := fun _ => { status := 200, body := "B", errs := ["E"] }

/-- A transport answering every request with status 404, body "nf" and no errors. -/
def t404 : Transport := fun _ => { status := 404, body := "nf", errs := [] }

/-- A transport answering every request with status 200, body "nf" and no errors. -/
def t200 : Transport := fun _ => { status := 200, body := "nf", errs := [] }

/-! ### Helper lemmas -/

/-- Merging the literal `"/"` into the preceding literal of the URL scheme. -/
theorem admin_slash_append (x : String) :
    ".myshopify.com/admin" ++ ("/" ++ x) = ".myshopify.com/admin/" ++ x := by
  rw [← String.append_assoc]
  exact congrArg (fun s => s ++ x) rfl

/-- Folding string append over a list of strings from any accumulator. -/
theorem foldl_append_shift (l : List String) (a : String) :
    l.foldl (fun r s => r ++ s) a = a ++ String.join l := by
  induction l generalizing a with
  | nil =>
    show a = a ++ ""
    rw [String.append_empty]
  | cons y ys ih =>
    show ys.foldl (fun r s => r ++ s) (a ++ y) = a ++ String.join (y :: ys)
    rw [ih (a ++ y)]
    have hj : String.join (y :: ys) = y ++ String.join ys := by
      show ys.foldl (fun r s => r ++ s) ("" ++ y) = y ++ String.join ys
      have h0 : ("" : String) ++ y = y := rfl
      rw [h0]
      exact ih y
    rw [hj, String.append_assoc]

/-- `String.join` peels one string off the front. -/
theorem join_cons (s : String) (l : List String) :
    String.join (s :: l) = s ++ String.join l := by
  show l.foldl (fun r t => r ++ t) ("" ++ s) = s ++ String.join l
  have h0 : ("" : String) ++ s = s := rfl
  rw [h0]
  exact foldl_append_shift l s

/-- The source's query-string fold, expressed with `String.join`. -/
theorem foldl_pairs_eq_join (ps : List (String × String)) (init : String) :
    ps.foldl (fun acc kv => acc ++ kv.1 ++ "=" ++ kv.2 ++ "&") init =
      init ++ String.join (ps.map (fun kv => kv.1 ++ "=" ++ kv.2 ++ "&")) := by
  induction ps generalizing init with
  | nil =>
    show init = init ++ String.join []
    show init = init ++ ""
    rw [String.append_empty]
  | cons x xs ih =>
    show xs.foldl (fun acc kv => acc ++ kv.1 ++ "=" ++ kv.2 ++ "&")
        (init ++ x.1 ++ "=" ++ x.2 ++ "&") = _
    rw [ih]
    rw [List.map_cons, join_cons]
    simp only [String.append_assoc]

/-! ### Claim theorems -/

/-- C1: For every method string `m`, endpoint `e` and data `d`,
`Request(m, e, d)` issues exactly one request, that request is a GET to the
target URL built from `e`, and the whole result is independent of `m`. -/
theorem Request_always_GET {V : Type} (shopify : Shopify) (ser : Serializer V)
    (t : Transport) (m m2 e : String) (d : Option V) :
    (shopify.Request ser t m e d).trace.map (fun r => (r.method, r.url)) =
      [(Method.GET, shopify.createTargetURL e)] ∧
    shopify.Request ser t m e d = shopify.Request ser t m2 e d := by
  constructor
  · cases h : (ser d).1 <;> cases d <;>
      simp [Shopify.Request, GoRequest.endCall, gorequestNew, GoRequest.get,
        GoRequest.send, h]
  · rfl

/-- C2: For every endpoint `e` and client built by `New(store, key, pass)`,
`createTargetURL(e)` is exactly
`https://{key}:{pass}@{store}.myshopify.com/admin/{e}.json`. -/
theorem createTargetURL_eq (key pass store e : String) :
    (New store key pass).createTargetURL e =
      "https://" ++ key ++ ":" ++ pass ++ "@" ++ store ++ ".myshopify.com/admin/"
        ++ e ++ ".json" := by
  show "https://" ++ key ++ ":" ++ pass ++ "@" ++ store ++ ".myshopify.com/admin"
      ++ "/" ++ e ++ ".json" ++ "" = _
  simp only [String.append_empty, String.append_assoc, admin_slash_append]

/-- C7: For every endpoint `e` and transport, `Delete(e)` issues exactly one
DELETE request, to the parameterless target URL, with no body, and returns
the transport's body and error list. -/
theorem Delete_spec (shopify : Shopify) (t : Transport) (e : String) :
    (shopify.Delete t e).trace =
      [{ method := Method.DELETE, url := shopify.createTargetURL e, sendBody := none }] ∧
    (shopify.Delete t e).body =
      some (t { method := Method.DELETE, url := shopify.createTargetURL e,
                sendBody := none }).body ∧
    (shopify.Delete t e).errs =
      (t { method := Method.DELETE, url := shopify.createTargetURL e,
           sendBody := none }).errs :=
  ⟨rfl, rfl, rfl⟩

/-- C10: No client operation changes the `store`, `apiKey` or `pass` fields
of the receiver: the post-call client state equals the pre-call state for
`Request`, `Get`, `GetWithParameters`, `Post`, `Put` and `Delete`. -/
theorem client_immutable {V : Type} (shopify : Shopify) (ser : Serializer V)
    (t : Transport) (m e : String) (d : Option V)
    (params : Option (List (String × String))) :
    (shopify.Request ser t m e d).self = shopify ∧
    (shopify.Get t e).self = shopify ∧
    (shopify.GetWithParameters t e params).self = shopify ∧
    (shopify.Post ser t e d).self = shopify ∧
    (shopify.Put ser t e d).self = shopify ∧
    (shopify.Delete t e).self = shopify := by
  refine ⟨rfl, rfl, rfl, ?_, ?_, rfl⟩ <;>
  · rcases hs : ser d with ⟨jd, er⟩
    cases er <;> cases jd <;> cases d <;>
      simp [Shopify.Post, Shopify.Put, hs, GoRequest.endCall]

/-- C4: For every endpoint and every data value whose serialization fails,
`Post` and `Put` both return a nil body and exactly the one serialization
error, issuing no HTTP request at all. -/
theorem Post_Put_serialization_failure {V : Type} (shopify : Shopify)
    (ser : Serializer V) (t : Transport) (e : String) (d : Option V)
    (err : GoError) (h : (ser d).2 = some err) :
    shopify.Post ser t e d =
      { self := shopify, body := none, errs := [err], trace := [] } ∧
    shopify.Put ser t e d =
      { self := shopify, body := none, errs := [err], trace := [] } := by
  rcases hs : ser d with ⟨jd, er⟩
  rw [hs] at h
  simp only at h
  subst h
  constructor <;> simp [Shopify.Post, Shopify.Put, hs]

/-- C4 witness: a concrete failing serializer makes `Post` and `Put` return
nil bytes, the single error, and an empty request trace. -/
theorem Post_Put_serialization_failure_witness :
    (serFail (some ())).2 = some "boom" ∧
    ((New "s" "k" "p").Post serFail t0 "products" (some ()) =
        { self := New "s" "k" "p", body := none, errs := ["boom"], trace := [] } ∧
      (New "s" "k" "p").Put serFail t0 "products" (some ()) =
        { self := New "s" "k" "p", body := none, errs := ["boom"], trace := [] }) :=
  ⟨rfl, Post_Put_serialization_failure (New "s" "k" "p") serFail t0 "products"
    (some ()) "boom" rfl⟩

/-- C5: For every method, endpoint and data value whose serialization
fails, `Request` still issues exactly one HTTP call and returns the raw
transport body together with exactly the transport's error list, so the
serialization error is never added to the returned errors. -/
theorem Request_ignores_serialization_failure {V : Type} (shopify : Shopify)
    (ser : Serializer V) (t : Transport) (m e : String) (d : Option V)
    (err : GoError) (h : (ser d).2 = some err) :
    (shopify.Request ser t m e d).trace.length = 1 ∧
    ∀ req ∈ (shopify.Request ser t m e d).trace,
      (shopify.Request ser t m e d).body = some (t req).body ∧
      (shopify.Request ser t m e d).errs = (t req).errs := by
  constructor
  · cases hj : (ser d).1 <;> cases d <;>
      simp [Shopify.Request, GoRequest.endCall, hj]
  · intro req hreq
    cases hj : (ser d).1 <;> cases d <;>
      simp [Shopify.Request, GoRequest.endCall, hj] at hreq ⊢ <;>
      subst hreq <;> exact ⟨rfl, rfl⟩

/-- C5 witness: a concrete failing serializer does not stop `Request` from
calling the transport and passing its body and errors through. -/
theorem Request_ignores_serialization_failure_witness :
    (serFail (some ())).2 = some "boom" ∧
    ((New "s" "k" "p").Request serFail t0 "POST" "products" (some ())).body = some "B" ∧
    ((New "s" "k" "p").Request serFail t0 "POST" "products" (some ())).errs = ["E"] := by
  have h := Request_ignores_serialization_failure (New "s" "k" "p") serFail t0
    "POST" "products" (some ()) "boom" rfl
  have hm := h.2 (gorequestNew.get ((New "s" "k" "p").createTargetURL "products"))
    (by simp [Shopify.Request, GoRequest.endCall, serFail])
  exact ⟨rfl, hm.1, hm.2⟩

/-- C3 counterexample: for the one-pair mapping `a ↦ 1`, the built URL is
not the base URL followed by `?` and the `k=v` pairs joined by `&` alone:
the code appends a further `&` after the last pair. -/
theorem createTargetURLWithParameters_not_plain_join :
    (New "s" "k" "p").createTargetURLWithParameters "e" (some [("a", "1")]) ≠
      (New "s" "k" "p").createTargetURL "e" ++ "?" ++
        String.intercalate "&" ([("a", "1")].map (fun kv => kv.1 ++ "=" ++ kv.2)) := by
  decide

/-- C3 amended: for every non-empty parameter mapping, the built URL is the
parameterless target URL followed by `?` and then each `k=v` pair with a
`&` after it (the pairs joined by `&`, plus one trailing `&` after the
last pair). -/
theorem createTargetURLWithParameters_query (shopify : Shopify) (e : String)
    (ps : List (String × String)) (h : ps ≠ []) :
    shopify.createTargetURLWithParameters e (some ps) =
      shopify.createTargetURL e ++ "?" ++
        String.join (ps.map (fun kv => kv.1 ++ "=" ++ kv.2 ++ "&")) := by
  have hlen : ps.length > 0 := List.length_pos.mpr h
  simp only [Shopify.createTargetURLWithParameters, Shopify.createTargetURL]
  rw [if_pos hlen, foldl_pairs_eq_join]
  simp only [String.append_empty, String.append_assoc]

/-- C3 witness: the amended description evaluated at the one-pair mapping. -/
theorem createTargetURLWithParameters_query_witness :
    ([("a", "1")] : List (String × String)) ≠ [] ∧
    (New "s" "k" "p").createTargetURLWithParameters "e" (some [("a", "1")]) =
      (New "s" "k" "p").createTargetURL "e" ++ "?" ++
        String.join ([("a", "1")].map (fun kv => kv.1 ++ "=" ++ kv.2 ++ "&")) :=
  ⟨by decide,
    createTargetURLWithParameters_query (New "s" "k" "p") "e" [("a", "1")] (by decide)⟩

/-- C6 counterexample: with endpoint `a?b` the request issued by `Get` goes
to a URL that does contain `?`, so "the built URL contains no `?`" does not
hold for every endpoint. -/
theorem Get_url_contains_question_mark :
    ((New "s" "k" "p").Get t0 "a?b").trace.map GoRequest.url =
      [(New "s" "k" "p").createTargetURLWithParameters "a?b" none] ∧
    '?' ∈ ((New "s" "k" "p").createTargetURLWithParameters "a?b" none).data := by
  decide

/-- C6 amended: `Get(e)` equals `GetWithParameters(e, nil)`; the single
request it issues goes to the parameterless target URL, which contains no
`?` provided the endpoint and the client's credentials contain none; and a
non-nil empty parameter map produces the same URL as a nil map. -/
theorem Get_no_query (shopify : Shopify) (t : Transport) (e : String)
    (hk : '?' ∉ shopify.apiKey.data) (hp : '?' ∉ shopify.pass.data)
    (hs : '?' ∉ shopify.store.data) (he : '?' ∉ e.data) :
    shopify.Get t e = shopify.GetWithParameters t e none ∧
    (∀ req ∈ (shopify.Get t e).trace,
      req.url = shopify.createTargetURL e ∧ '?' ∉ req.url.data) ∧
    shopify.createTargetURLWithParameters e (some []) =
      shopify.createTargetURLWithParameters e none := by
  refine ⟨rfl, ?_, rfl⟩
  intro req hreq
  have hr : req = gorequestNew.get (shopify.createTargetURLWithParameters e none) := by
    simpa [Shopify.Get, Shopify.GetWithParameters, GoRequest.endCall] using hreq
  subst hr
  refine ⟨rfl, ?_⟩
  show '?' ∉ (shopify.createTargetURLWithParameters e none).data
  simp only [Shopify.createTargetURLWithParameters, domain, String.append_empty]
  simp only [String.data_append, List.mem_append, not_or, and_assoc]
  exact ⟨by decide, hk, by decide, hp, by decide, hs, by decide, by decide, he, by decide⟩

/-- C6 witness: the amended statement at a concrete client and endpoint
free of `?`. -/
theorem Get_no_query_witness :
    ('?' ∉ ("k" : String).data) ∧
    (New "s" "k" "p").Get t200 "products" =
      (New "s" "k" "p").GetWithParameters t200 "products" none ∧
    '?' ∉ (gorequestNew.get ((New "s" "k" "p").createTargetURL "products")).url.data := by
  have h := Get_no_query (New "s" "k" "p") t200 "products"
    (by decide) (by decide) (by decide) (by decide)
  refine ⟨by decide, h.1, ?_⟩
  exact (h.2.1 (gorequestNew.get ((New "s" "k" "p").createTargetURL "products"))
    (by decide)).2

/-- C8: the HTTP status code is never inspected: two transports that agree
on response bodies and error lists (but may disagree on status codes, e.g.
200 vs 404 or 500) give identical results for every operation; and every
operation passes the transport's body and error list through unchanged for
each request it issues, returning an empty error list whenever the
transport reports no errors. -/
theorem status_never_inspected {V : Type} (shopify : Shopify) (ser : Serializer V)
    (t1 t2 : Transport)
    (hb : ∀ r, (t1 r).body = (t2 r).body) (he : ∀ r, (t1 r).errs = (t2 r).errs)
    (m e : String) (d : Option V) (params : Option (List (String × String))) :
    (shopify.Request ser t1 m e d = shopify.Request ser t2 m e d ∧
     shopify.Get t1 e = shopify.Get t2 e ∧
     shopify.GetWithParameters t1 e params = shopify.GetWithParameters t2 e params ∧
     shopify.Post ser t1 e d = shopify.Post ser t2 e d ∧
     shopify.Put ser t1 e d = shopify.Put ser t2 e d ∧
     shopify.Delete t1 e = shopify.Delete t2 e) ∧
    (∀ req ∈ (shopify.Request ser t1 m e d).trace,
      (shopify.Request ser t1 m e d).body = some (t1 req).body ∧
      (shopify.Request ser t1 m e d).errs = (t1 req).errs ∧
      ((t1 req).errs = [] → (shopify.Request ser t1 m e d).errs = [])) ∧
    (∀ req ∈ (shopify.Get t1 e).trace,
      (shopify.Get t1 e).body = some (t1 req).body ∧
      (shopify.Get t1 e).errs = (t1 req).errs ∧
      ((t1 req).errs = [] → (shopify.Get t1 e).errs = [])) ∧
    (∀ req ∈ (shopify.GetWithParameters t1 e params).trace,
      (shopify.GetWithParameters t1 e params).body = some (t1 req).body ∧
      (shopify.GetWithParameters t1 e params).errs = (t1 req).errs ∧
      ((t1 req).errs = [] → (shopify.GetWithParameters t1 e params).errs = [])) ∧
    (∀ req ∈ (shopify.Post ser t1 e d).trace,
      (shopify.Post ser t1 e d).body = some (t1 req).body ∧
      (shopify.Post ser t1 e d).errs = (t1 req).errs ∧
      ((t1 req).errs = [] → (shopify.Post ser t1 e d).errs = [])) ∧
    (∀ req ∈ (shopify.Put ser t1 e d).trace,
      (shopify.Put ser t1 e d).body = some (t1 req).body ∧
      (shopify.Put ser t1 e d).errs = (t1 req).errs ∧
      ((t1 req).errs = [] → (shopify.Put ser t1 e d).errs = [])) ∧
    (∀ req ∈ (shopify.Delete t1 e).trace,
      (shopify.Delete t1 e).body = some (t1 req).body ∧
      (shopify.Delete t1 e).errs = (t1 req).errs ∧
      ((t1 req).errs = [] → (shopify.Delete t1 e).errs = [])) := by
  refine ⟨⟨?_, ?_, ?_, ?_, ?_, ?_⟩, ?_, ?_, ?_, ?_, ?_, ?_⟩
  · cases hj : (ser d).1 <;> cases d <;>
      simp [Shopify.Request, GoRequest.endCall, hj, hb, he]
  · simp [Shopify.Get, Shopify.GetWithParameters, GoRequest.endCall, hb, he]
  · simp [Shopify.GetWithParameters, GoRequest.endCall, hb, he]
  · rcases hs : ser d with ⟨jd, er⟩
    cases er <;> cases jd <;> cases d <;>
      simp [Shopify.Post, hs, GoRequest.endCall, hb, he]
  · rcases hs : ser d with ⟨jd, er⟩
    cases er <;> cases jd <;> cases d <;>
      simp [Shopify.Put, hs, GoRequest.endCall, hb, he]
  · simp [Shopify.Delete, GoRequest.endCall, hb, he]
  · intro req hreq
    cases hj : (ser d).1 <;> cases d <;>
      simp [Shopify.Request, GoRequest.endCall, hj] at hreq ⊢ <;>
      subst hreq <;> exact ⟨rfl, rfl, fun h0 => h0⟩
  · intro req hreq
    have hr : req = gorequestNew.get (shopify.createTargetURLWithParameters e none) := by
      simpa [Shopify.Get, Shopify.GetWithParameters, GoRequest.endCall] using hreq
    subst hr
    exact ⟨rfl, rfl, fun h0 => h0⟩
  · intro req hreq
    have hr : req = gorequestNew.get (shopify.createTargetURLWithParameters e params) := by
      simpa [Shopify.GetWithParameters, GoRequest.endCall] using hreq
    subst hr
    exact ⟨rfl, rfl, fun h0 => h0⟩
  · intro req hreq
    rcases hs : ser d with ⟨jd, er⟩
    cases er
    · cases hj : jd <;> cases d <;>
        simp [Shopify.Post, hs, GoRequest.endCall] at hreq ⊢ <;>
        subst hreq <;> exact ⟨rfl, rfl, fun h0 => h0⟩
    · simp [Shopify.Post, hs] at hreq
  · intro req hreq
    rcases hs : ser d with ⟨jd, er⟩
    cases er
    · cases hj : jd <;> cases d <;>
        simp [Shopify.Put, hs, GoRequest.endCall] at hreq ⊢ <;>
        subst hreq <;> exact ⟨rfl, rfl, fun h0 => h0⟩
    · simp [Shopify.Put, hs] at hreq
  · intro req hreq
    have hr : req = gorequestNew.delete (shopify.createTargetURL e) := by
      simpa [Shopify.Delete, GoRequest.endCall] using hreq
    subst hr
    exact ⟨rfl, rfl, fun h0 => h0⟩

/-- C8 witness: a 404 transport with no errors gives the same result as a
200 transport with the same body; the bodies returned by `Delete` and
`Post` are the transport's bytes unchanged, and the returned error list is
empty when the transport reports none. -/
theorem status_never_inspected_witness :
    (New "s" "k" "p").Get t404 "x" = (New "s" "k" "p").Get t200 "x" ∧
    ((New "s" "k" "p").Delete t404 "x").body = some "nf" ∧
    ((New "s" "k" "p").Post serOk t404 "x" (some ())).body = some "nf" ∧
    ((New "s" "k" "p").GetWithParameters t404 "x" none).errs = [] := by
  have h := status_never_inspected (V := Unit) (New "s" "k" "p") serOk t404 t200
    (fun _ => rfl) (fun _ => rfl) "GET" "x" (some ()) none
  refine ⟨h.1.2.1, ?_, ?_, ?_⟩
  · exact (h.2.2.2.2.2.2
      (gorequestNew.delete ((New "s" "k" "p").createTargetURL "x")) (by decide)).1
  · exact (h.2.2.2.2.1
      ((gorequestNew.post ((New "s" "k" "p").createTargetURL "x")).send "\x7b\x7d")
      (by decide)).1
  · exact (h.2.2.2.1
      (gorequestNew.get ((New "s" "k" "p").createTargetURLWithParameters "x" none))
      (by decide)).2.2 rfl

/-! ### Response DTOs and the JSON collaborator (for the round-trip claim) -/

/-- JSON values as handled by Go's `encoding/json` collaborator. -/
inductive Json where
  | null
  | bool (b : Bool)
  | num (n : Int)
  | str (s : String)
  | arr (elems : List Json)
  | obj (fields : List (String × Json))

/-- Modelled from the spec: the `Product` DTO is referenced by
`responses.go` but its definition is not under `src/`; per the spec it is a
plain record mapping JSON fields to typed fields, modelled here with an
integer id and a string title. -/
structure Product where
  id : Int
  title : String
  deriving DecidableEq, Repr

/-- `ProductResponse` from `responses.go`: a `Product` under the JSON key
`product`. -/
structure ProductResponse where
  product : Product
  deriving DecidableEq, Repr

/-- Modelled from the spec: Go JSON encoding of `Product` (the external
JSON collaborator applied to the modelled `Product` record). -/
def encodeProduct (p : Product) : Json :=
  Json.obj [("id", Json.num p.id), ("title", Json.str p.title)]

/-- Modelled from the spec: Go JSON decoding of `Product`. -/
def decodeProduct (j : Json) : Option Product :=
  match j with
  | Json.obj fields =>
    match fields.lookup "id", fields.lookup "title" with
    | some (Json.num n), some (Json.str s) => some { id := n, title := s }
    | _, _ => none
  | _ => none

/-- Go JSON encoding of `ProductResponse` per its `json:"product"` tag. -/
def encodeProductResponse (pr : ProductResponse) : Json :=
  Json.obj [("product", encodeProduct pr.product)]

/-- Go JSON decoding of `ProductResponse` per its `json:"product"` tag. -/
def decodeProductResponse (j : Json) : Option ProductResponse :=
  match j with
  | Json.obj fields =>
    match fields.lookup "product" with
    | some pj =>
      match decodeProduct pj with
      | some p => some { product := p }
      | none => none
    | none => none
  | _ => none

/-- C9: encoding a `ProductResponse` to JSON and decoding the result back
yields the original field values. -/
theorem productResponse_round_trip (pr : ProductResponse) :
    decodeProductResponse (encodeProductResponse pr) = some pr := by
  rcases pr with ⟨⟨n, s⟩⟩
  rfl
